import Mathlib

/-!
Verification of the FlavourQuest application (src/FlavourQuest.py) against its
natural-language specification.

The shallow embedding below translates the retry decorator, the
RecipeRepository (save, list, delete, close, observer registry) and the
fetch-and-display routine into Lean. Machine-level concerns (the actual
database connection, the Tk widgets, the PDF file) are represented by their
observable effects: the table is a list of rows, the observer list is a list
of observer identities, and a notification is the sequence of observers whose
update method runs.
-/

namespace FlavourQuest

/-! ## The retry decorator (src/FlavourQuest.py lines 17-32)

The decorated function body is modelled as `op : Nat → Except ε α`: `op i` is
the outcome of the i-th invocation (0-indexed). Python code:

  def retry_logic(*args, **kwargs):
      last_exception = None
      for _ in range(attempts):
          try:
              return func(*args, **kwargs)
          except Exception as e:
              print(...)
              last_exception = e
              time.sleep(delay)
      raise last_exception

The trace records the final outcome, the number of invocations of func, and
the number of time.sleep calls. `raise last_exception` with
`last_exception = None` (only reachable when attempts = 0) raises a bare
TypeError in Python; it is modelled by the distinct outcome `raisedNone`. -/

inductive RetryResult (ε α : Type) where
  | ok (a : α)
  | raised (e : ε)
  | raisedNone
deriving DecidableEq, Repr

structure RetryTrace (ε α : Type) where
  result : RetryResult ε α
  calls : Nat
  sleeps : Nat
deriving DecidableEq, Repr

/-- One pass of the for-loop of retry_logic: `n` iterations remain, `i` is the
index of the next invocation, `last` is the current last_exception. -/
def retry_logic (op : Nat → Except ε α) : Nat → Nat → Option ε → RetryTrace ε α
  | 0, _, some e => ⟨RetryResult.raised e, 0, 0⟩
  | 0, _, none => ⟨RetryResult.raisedNone, 0, 0⟩
  | n + 1, i, _ =>
    match op i with
    | Except.ok a => ⟨RetryResult.ok a, 1, 0⟩
    | Except.error e =>
      let t := retry_logic op n (i + 1) (some e)
      ⟨t.result, t.calls + 1, t.sleeps + 1⟩

/-- The decorator `retry(attempts, delay)` applied to `op`, then called once:
runs the loop from invocation 0 with last_exception = None. The delay value
does not influence control flow (each sleep lasts `delay` seconds); the trace
counts the sleeps. -/
def retry (attempts delay : Nat) (op : Nat → Except ε α) : RetryTrace ε α :=
  retry_logic op attempts 0 none

/-- Helper: an operation that fails on every invocation, with the error of the
j-th invocation given by `errs j`. -/
def alwaysFail (errs : Nat → ε) : Nat → Except ε α :=
  fun j => Except.error (errs j)

/-- Loop invariant for an always-failing operation: starting at index `i` with
`n ≥ 1` iterations left, the loop calls the operation `n` times, sleeps `n`
times, and raises the error of the last invocation, index `i + n - 1`. -/
theorem retry_logic_alwaysFail (errs : Nat → ε) :
    ∀ n i last, 0 < n →
      retry_logic (alwaysFail errs (α := α)) n i last =
        ⟨RetryResult.raised (errs (i + n - 1)), n, n⟩ := by
  intro n
  induction n with
  | zero => intro i last h; exact absurd h (by simp)
  | succ m ih =>
    intro i last _
    cases m with
    | zero =>
      simp [retry_logic, alwaysFail]
    | succ k =>
      have hrec := ih (i + 1) (some (errs i)) (Nat.succ_pos k)
      have hstep : retry_logic (alwaysFail errs (α := α)) (k + 1 + 1) i last =
          ⟨(retry_logic (alwaysFail errs) (k + 1) (i + 1) (some (errs i))).result,
           (retry_logic (alwaysFail errs) (k + 1) (i + 1) (some (errs i))).calls + 1,
           (retry_logic (alwaysFail errs) (k + 1) (i + 1) (some (errs i))).sleeps + 1⟩ := rfl
      rw [hstep, hrec, show i + 1 + (k + 1) - 1 = i + (k + 1 + 1) - 1 by omega]

/-- Loop invariant for an operation that fails on its first `m` invocations
(counting from index `i`) and succeeds on invocation `i + m`: with more than
`m` iterations left, the loop returns the success, having called the operation
`m + 1` times and slept `m` times. -/
theorem retry_logic_succeeds (op : Nat → Except ε α) (a : α) :
    ∀ m n i last, m < n →
      (∀ j, j < m → ∃ e, op (i + j) = Except.error e) →
      op (i + m) = Except.ok a →
      retry_logic op n i last = ⟨RetryResult.ok a, m + 1, m⟩ := by
  intro m
  induction m with
  | zero =>
    intro n i last hn _ hok
    cases n with
    | zero => exact absurd hn (by simp)
    | succ k =>
      simp only [retry_logic]
      rw [show i + 0 = i by omega] at hok
      rw [hok]
  | succ m ih =>
    intro n i last hn hfail hok
    cases n with
    | zero => exact absurd hn (by simp)
    | succ k =>
      obtain ⟨e, he⟩ := hfail 0 (Nat.succ_pos m)
      rw [show i + 0 = i by omega] at he
      have hrec : retry_logic op k (i + 1) (some e) = ⟨RetryResult.ok a, m + 1, m⟩ := by
        apply ih k (i + 1) (some e) (by omega)
        · intro j hj
          obtain ⟨e2, he2⟩ := hfail (j + 1) (by omega)
          exact ⟨e2, by rw [show i + 1 + j = i + (j + 1) by omega]; exact he2⟩
        · rw [show i + 1 + m = i + (m + 1) by omega]; exact hok
      simp only [retry_logic, he, hrec]

/-! ## The Python exception universe, for the claims about error identity.

Modelled from the spec: the spec (sections 4.1 and 7) names an
`ExhaustedRetries` error that carries the last underlying cause from the retry
policy. The source defines no such class; to compare the source with the spec
we use a concrete exception type holding both the plain operation errors and
the hypothetical wrapper, with a discriminator telling them apart. -/

inductive PyExc where
  | opError (code : Nat)
  | exhaustedRetries (cause : PyExc)
deriving DecidableEq, Repr

def PyExc.isExhaustedRetries : PyExc → Bool
  | PyExc.exhaustedRetries _ => true
  | _ => false

/-- C2, counterexample. The claim says retry fails with an ExhaustedRetries
error carrying the final underlying error rather than raising the underlying
error bare. At maxAttempts = 1 and an operation that always raises opError 7,
the code raises opError 7 itself, which is not an ExhaustedRetries wrapper. -/
theorem retry_exhausted_wrapper_counterexample :
    (retry 1 2 (fun _ => Except.error (PyExc.opError 7) : Nat → Except PyExc Nat)).result
        = RetryResult.raised (PyExc.opError 7) ∧
    PyExc.isExhaustedRetries (PyExc.opError 7) = false :=
  ⟨rfl, rfl⟩

/-- C2, amended: for every operation that fails on every invocation and every
maxAttempts n ≥ 1, the retry wrapper terminates by failing, re-raising the
final underlying error (the error from the last invocation) bare, rather than
returning a result or wrapping the error. -/
theorem retry_raises_last_error_bare (n delay : Nat) (errs : Nat → ε)
    (hn : 0 < n) :
    (retry n delay (alwaysFail errs (α := α))).result =
      RetryResult.raised (errs (n - 1)) := by
  unfold retry
  rw [retry_logic_alwaysFail errs n 0 none hn]
  simp

/-- C2, witness for retry_raises_last_error_bare at n = 2. -/
theorem retry_raises_last_error_bare_witness :
    (retry 2 2 (alwaysFail (fun j => PyExc.opError j) (α := Nat))).result =
      RetryResult.raised (PyExc.opError 1) :=
  retry_raises_last_error_bare 2 2 (fun j => PyExc.opError j) (by decide)

/-- C3: for every maxAttempts n ≥ 1 and every operation that fails on every
invocation, the retry wrapper invokes the operation exactly n times, and the
error it finally reports equals the error produced by the n-th invocation
(index n - 1 with 0-indexed invocations). -/
theorem retry_allFail_calls_and_last_error (n delay : Nat) (errs : Nat → ε)
    (hn : 0 < n) :
    (retry n delay (alwaysFail errs (α := α))).calls = n ∧
    (retry n delay (alwaysFail errs (α := α))).result =
      RetryResult.raised (errs (n - 1)) := by
  unfold retry
  rw [retry_logic_alwaysFail errs n 0 none hn]
  simp

/-- C3, witness at n = 3 with distinguishable errors per invocation. -/
theorem retry_allFail_calls_and_last_error_witness :
    (retry 3 2 (alwaysFail (fun j => PyExc.opError (j + 10)) (α := Nat))).calls = 3 ∧
    (retry 3 2 (alwaysFail (fun j => PyExc.opError (j + 10)) (α := Nat))).result =
      RetryResult.raised (PyExc.opError 12) :=
  retry_allFail_calls_and_last_error 3 2 (fun j => PyExc.opError (j + 10)) (by decide)

/-- C4: for every maxAttempts n ≥ 1 and every operation that fails on its
first k - 1 invocations and succeeds on invocation k ≤ n, the retry wrapper
returns that success result and invokes the operation exactly k times. -/
theorem retry_returns_first_success (n k delay : Nat) (op : Nat → Except ε α) (a : α)
    (hk : 0 < k) (hkn : k ≤ n)
    (hfail : ∀ j, j + 1 < k → ∃ e, op j = Except.error e)
    (hok : op (k - 1) = Except.ok a) :
    retry n delay op = ⟨RetryResult.ok a, k, k - 1⟩ := by
  unfold retry
  have h := retry_logic_succeeds op a (k - 1) n 0 none (by omega)
    (fun j hj => by simpa using hfail j (by omega))
    (by simpa using hok)
  rw [h]
  congr 1 <;> omega

/-- C4, witness: failures on invocations 1 and 2, success on invocation 3,
maxAttempts 5: the result is the success and the operation ran 3 times. -/
theorem retry_returns_first_success_witness :
    retry 5 2 (fun j => if j < 2 then Except.error (PyExc.opError j) else Except.ok 99) =
      ⟨RetryResult.ok 99, 3, 2⟩ :=
  retry_returns_first_success 5 3 2
    (fun j => if j < 2 then Except.error (PyExc.opError j) else Except.ok 99) 99
    (by decide) (by decide)
    (fun j hj => ⟨PyExc.opError j, by
      have : j < 2 := by omega
      simp [this]⟩)
    rfl

/-- C10: for every operation that fails on every invocation and every
maxAttempts n ≥ 1, the retry wrapper sleeps after every failed attempt
including the n-th (final) one: exactly n delay periods elapse before the
failure propagates, not n - 1. -/
theorem retry_sleeps_after_every_failure (n delay : Nat) (errs : Nat → ε)
    (hn : 0 < n) :
    (retry n delay (alwaysFail errs (α := α))).sleeps = n := by
  unfold retry
  rw [retry_logic_alwaysFail errs n 0 none hn]

/-- C10, witness at n = 3: three sleeps, not two. -/
theorem retry_sleeps_after_every_failure_witness :
    (retry 3 2 (alwaysFail (fun j => PyExc.opError j) (α := Nat))).sleeps = 3 :=
  retry_sleeps_after_every_failure 3 2 (fun j => PyExc.opError j) (by decide)

/-! ## The RecipeRepository (src/FlavourQuest.py lines 55-106)

The recipes table is a list of rows. The schema (ensure_table_exists) gives
each row a SERIAL PRIMARY KEY id plus title, ingredients, instructions and
source_url columns; new rows receive a fresh id (`nextId`). Observers are
identities (Nat) held in a Python list; notify_observers runs update on each
element in order, so a notification is modelled as the list of observer
identities whose update runs. The cursor and connection are shared state with
a closed flag: after close(), psycopg2 raises InterfaceError
("cursor already closed") from cursor.execute, which realises the spec
taxonomy entry ClosedStoreError, modelled here as `StoreError.closedStore`. -/

structure Row where
  id : Nat
  title : String
  ingredients : String
  instructions : String
  sourceUrl : String
deriving DecidableEq, Repr

structure RepoState where
  rows : List Row
  nextId : Nat
  observers : List Nat
  closed : Bool
deriving DecidableEq, Repr

inductive StoreError where
  | closedStore
deriving DecidableEq, Repr

/-- A fetched recipe dict: title, the original field of each entry of
extendedIngredients, the optional instructions key, and sourceUrl. -/
structure Recipe where
  title : String
  extendedIngredients : List String
  instructions : Option String
  sourceUrl : String
deriving DecidableEq, Repr

/-- The tuple shape returned by `SELECT title, ingredients, instructions,
source_url FROM recipes` (the id column is not selected). -/
def rowTuple (r : Row) : String × String × String × String :=
  (r.title, r.ingredients, r.instructions, r.sourceUrl)

/-- save_recipe: joins the ingredient originals with ", ", defaults a missing
instructions key to the placeholder, INSERTs a row (SERIAL assigns the next
id), shows the success message box and notifies the observers. The returned
list is the sequence of observers whose update ran. -/
def save_recipe (s : RepoState) (recipe : Recipe) :
    Except StoreError (RepoState × List Nat) :=
  if s.closed then Except.error StoreError.closedStore
  else
    let ingredients := String.intercalate ", " recipe.extendedIngredients
    let instructions := recipe.instructions.getD "No instructions provided."
    let row : Row := ⟨s.nextId, recipe.title, ingredients, instructions, recipe.sourceUrl⟩
    Except.ok ({ s with rows := s.rows ++ [row], nextId := s.nextId + 1 }, s.observers)

/-- get_all_recipes: SELECTs title, ingredients, instructions, source_url of
every row. -/
def get_all_recipes (s : RepoState) :
    Except StoreError (List (String × String × String × String)) :=
  if s.closed then Except.error StoreError.closedStore
  else Except.ok (s.rows.map rowTuple)

/-- delete_recipe: receives a tuple as produced by get_all_recipes and runs
DELETE FROM recipes WHERE title = recipe[0]; every row whose title equals the
first component of the tuple is removed. It then shows the success message box
and notifies the observers, whatever the number of rows matched. -/
def delete_recipe (s : RepoState) (recipe : String × String × String × String) :
    Except StoreError (RepoState × List Nat) :=
  if s.closed then Except.error StoreError.closedStore
  else
    Except.ok ({ s with rows := s.rows.filter (fun row => row.title != recipe.1) },
      s.observers)

/-- close: cursor.close() and connection.close(); both succeed on an open
repository, leaving the cursor closed. -/
def close (s : RepoState) : RepoState :=
  { s with closed := true }

/-- register_observer: self.observers.append(observer). -/
def register_observer (s : RepoState) (o : Nat) : RepoState :=
  { s with observers := s.observers ++ [o] }

/-- remove_observer: self.observers.remove(observer); Python list.remove drops
the first occurrence and raises ValueError when the element is absent, hence
the Option. -/
def remove_observer (s : RepoState) (o : Nat) : Option RepoState :=
  if o ∈ s.observers then some { s with observers := s.observers.erase o }
  else none

/-! ## The fetch routine (src/FlavourQuest.py lines 109-117)

fetch_and_display_recipes performs the GET, raise_for_status, response.json()
and data[recipes-key] in that order; only then does it assign the global
current_recipes. An HTTP error status, an unparsable body, or a missing
recipes key each raise before the assignment, so the global keeps its prior
value. The response is modelled by whether raise_for_status raises, whether
the body parses, and whether the parsed body has the recipes key. -/

structure JsonBody where
  recipes : Option (List Recipe)
deriving DecidableEq, Repr

structure ApiResponse where
  statusError : Bool
  body : Option JsonBody
deriving DecidableEq, Repr

inductive FetchError where
  | httpStatus
  | parseFailure
  | missingRecipesKey
deriving DecidableEq, Repr

/-- The body of fetch_and_display_recipes up to and including the value
assigned to current_recipes, following the statement order of the source:
raise_for_status, then response.json(), then data[recipes-key]. -/
def fetch_and_display_recipes (resp : ApiResponse) : Except FetchError (List Recipe) :=
  if resp.statusError then Except.error FetchError.httpStatus
  else
    match resp.body with
    | none => Except.error FetchError.parseFailure
    | some data =>
      match data.recipes with
      | none => Except.error FetchError.missingRecipesKey
      | some rs => Except.ok rs

/-- Python semantics of the global current_recipes around one call of
fetch_and_display_recipes: a raised exception propagates before the
assignment, so the global keeps its previous value; on success the global
becomes the fetched batch. -/
def run_fetch (resp : ApiResponse) (current_recipes : List Recipe) :
    List Recipe × Option FetchError :=
  match fetch_and_display_recipes resp with
  | Except.ok rs => (rs, none)
  | Except.error e => (current_recipes, some e)

/-! ## Helper lemmas shared by the repository claims -/

/-- save_recipe on an open repository: the appended row and the notification
list, in one equation. -/
theorem save_recipe_open (s : RepoState) (r : Recipe) (hopen : s.closed = false) :
    save_recipe s r = Except.ok
      ({ s with
          rows := s.rows ++ [⟨s.nextId, r.title,
            String.intercalate ", " r.extendedIngredients,
            r.instructions.getD "No instructions provided.", r.sourceUrl⟩],
          nextId := s.nextId + 1 }, s.observers) := by
  simp [save_recipe, hopen]

/-- delete_recipe on an open repository: the filtered rows and the
notification list, in one equation. -/
theorem delete_recipe_open (s : RepoState)
    (t : String × String × String × String) (hopen : s.closed = false) :
    delete_recipe s t = Except.ok
      ({ s with rows := s.rows.filter (fun row => row.title != t.1) },
        s.observers) := by
  simp [delete_recipe, hopen]

/-! ## Claim theorems for the repository and the fetch routine -/

/-- Concrete store for the C1 counterexample: one saved row, id 1, title A. -/
def c1State : RepoState := ⟨[⟨1, "A", "i1", "s1", "u1"⟩], 2, [], false⟩

/-- A listing whose title is A but whose id, 2, matches no row of c1State. -/
def c1Stale : Row := ⟨2, "A", "i2", "s2", "u2"⟩

/-- C1, counterexample. The claim says deleting with an id that matches no
row is a no-op. delete_recipe matches rows by title, not id: passing the
listing of c1Stale, whose id 2 matches no row of c1State, nevertheless
deletes the row with id 1 because the titles coincide, so the state changes. -/
theorem delete_by_id_noop_counterexample :
    (c1State.rows.all fun r => r.id != c1Stale.id) = true ∧
    delete_recipe c1State (rowTuple c1Stale) =
      Except.ok (⟨[], 2, [], false⟩, []) ∧
    c1State.rows ≠ [] :=
  ⟨rfl, rfl, by decide⟩

/-- C1, amended: delete_recipe matches rows by title, not id. For every open
store and every listing, delete succeeds (never an error) notifying the
observers, the resulting table holds no row whose title equals the first
component of the listing (in particular, deleting the listing of a stored row
removes that row), and when no row bears that title the state is unchanged
(a no-op, not an error). -/
theorem delete_removes_title_matches (s : RepoState)
    (t : String × String × String × String) (hopen : s.closed = false) :
    ∃ s1, delete_recipe s t = Except.ok (s1, s.observers) ∧
      (∀ r ∈ s1.rows, r.title ≠ t.1) ∧
      ((∀ r ∈ s.rows, r.title ≠ t.1) → s1 = s) := by
  refine ⟨{ s with rows := s.rows.filter (fun row => row.title != t.1) },
    delete_recipe_open s t hopen, ?_, ?_⟩
  · intro r hr
    simpa [bne_iff_ne] using (List.mem_filter.mp hr).2
  · intro hall
    have hfix : s.rows.filter (fun row => row.title != t.1) = s.rows :=
      List.filter_eq_self.mpr (fun a ha => by simpa [bne_iff_ne] using hall a ha)
    rw [hfix]

/-- C1, witness: deleting the listing of the stored row A removes it, and
deleting a listing with the unused title B leaves the store unchanged. -/
theorem delete_removes_title_matches_witness :
    (∃ s1, delete_recipe c1State (rowTuple ⟨1, "A", "i1", "s1", "u1"⟩) =
        Except.ok (s1, c1State.observers) ∧
      (∀ r ∈ s1.rows, r.title ≠ "A") ∧
      ((∀ r ∈ c1State.rows, r.title ≠ "A") → s1 = c1State)) ∧
    (∃ s1, delete_recipe c1State ("B", "x", "y", "z") =
        Except.ok (s1, c1State.observers) ∧
      (∀ r ∈ s1.rows, r.title ≠ "B") ∧
      ((∀ r ∈ c1State.rows, r.title ≠ "B") → s1 = c1State)) :=
  ⟨delete_removes_title_matches c1State (rowTuple ⟨1, "A", "i1", "s1", "u1"⟩) rfl,
   delete_removes_title_matches c1State ("B", "x", "y", "z") rfl⟩

/-- C5: saving a Recipe with a non-empty ingredients sequence and then
listing yields, appended to the previous listing, a record whose title and
sourceUrl equal the inputs, whose ingredients field is the comma-join of the
ingredient strings, and whose instructions field is the input instructions
when present and the placeholder when absent. -/
theorem save_listAll_roundtrip (s : RepoState) (r : Recipe)
    (hopen : s.closed = false) (hne : r.extendedIngredients ≠ []) :
    ∃ s1 notes, save_recipe s r = Except.ok (s1, notes) ∧
      get_all_recipes s1 = Except.ok (s.rows.map rowTuple ++
        [(r.title,
          String.intercalate ", " r.extendedIngredients,
          (match r.instructions with
           | some ins => ins
           | none => "No instructions provided."),
          r.sourceUrl)]) := by
  refine ⟨_, s.observers, save_recipe_open s r hopen, ?_⟩
  simp [get_all_recipes, hopen, rowTuple]
  cases r.instructions <;> simp [Option.getD]

/-- C5, witness: a recipe with two ingredients and no instructions key. -/
theorem save_listAll_roundtrip_witness :
    ∃ s1 notes,
      save_recipe ⟨[], 1, [4, 7], false⟩ ⟨"Pie", ["egg", "flour"], none, "u"⟩ =
        Except.ok (s1, notes) ∧
      get_all_recipes s1 =
        Except.ok [("Pie", "egg, flour", "No instructions provided.", "u")] := by
  simpa using save_listAll_roundtrip ⟨[], 1, [4, 7], false⟩
    ⟨"Pie", ["egg", "flour"], none, "u"⟩ rfl (by decide)

/-- C6: with a duplicate-free observer list, one save notifies each
registered subscriber exactly once, and a subscriber removed before the save
is notified zero times by that save. -/
theorem save_notifies_each_subscriber_once (s : RepoState) (r : Recipe) (o : Nat)
    (hopen : s.closed = false) (hnd : s.observers.Nodup) (ho : o ∈ s.observers) :
    (∃ s1 notes, save_recipe s r = Except.ok (s1, notes) ∧ notes.count o = 1) ∧
    (∀ s2, remove_observer s o = some s2 →
      ∃ s3 notes, save_recipe s2 r = Except.ok (s3, notes) ∧ notes.count o = 0) := by
  constructor
  · exact ⟨_, s.observers, save_recipe_open s r hopen,
      List.count_eq_one_of_mem hnd ho⟩
  · intro s2 h2
    rw [remove_observer, if_pos ho] at h2
    have hs2 : s2 = { s with observers := s.observers.erase o } :=
      (Option.some.inj h2).symm
    subst hs2
    exact ⟨_, s.observers.erase o, save_recipe_open _ r hopen,
      List.count_eq_zero_of_not_mem hnd.not_mem_erase⟩

/-- C6, witness: observers 3 and 4, saving notifies 3 once; after removing 3,
saving notifies 3 zero times. -/
theorem save_notifies_each_subscriber_once_witness :
    (∃ s1 notes,
      save_recipe ⟨[], 1, [3, 4], false⟩ ⟨"Pie", ["egg"], some "bake", "u"⟩ =
        Except.ok (s1, notes) ∧ notes.count 3 = 1) ∧
    (∀ s2, remove_observer ⟨[], 1, [3, 4], false⟩ 3 = some s2 →
      ∃ s3 notes,
        save_recipe s2 ⟨"Pie", ["egg"], some "bake", "u"⟩ =
          Except.ok (s3, notes) ∧ notes.count 3 = 0) :=
  save_notifies_each_subscriber_once ⟨[], 1, [3, 4], false⟩
    ⟨"Pie", ["egg"], some "bake", "u"⟩ 3 rfl (by decide) (by decide)

/-- C7: whenever one run of the fetch routine fails, in any of its failure
modes, the previously held recipe batch is returned unchanged: no destructive
update of current_recipes on failure. -/
theorem fetch_failure_preserves_current (resp : ApiResponse)
    (current : List Recipe) (e : FetchError)
    (hfail : (run_fetch resp current).2 = some e) :
    (run_fetch resp current).1 = current := by
  unfold run_fetch at hfail ⊢
  cases h : fetch_and_display_recipes resp <;> simp [h] at hfail ⊢

/-- C7, witness: an error HTTP status leaves the prior one-recipe batch in
place. -/
theorem fetch_failure_preserves_current_witness :
    (run_fetch ⟨true, none⟩ [⟨"Pie", ["egg"], none, "u"⟩]).1 =
      [⟨"Pie", ["egg"], none, "u"⟩] :=
  fetch_failure_preserves_current ⟨true, none⟩ [⟨"Pie", ["egg"], none, "u"⟩]
    FetchError.httpStatus rfl

/-- C8: close marks the repository closed and does not fail (it is a total
function on any repository state), and every later save, delete or listAll
fails with the closed-store error (psycopg2 InterfaceError, the ClosedStoreError
of the spec taxonomy). -/
theorem ops_after_close_fail (s : RepoState) (r : Recipe)
    (t : String × String × String × String) :
    close s = { s with closed := true } ∧
    save_recipe (close s) r = Except.error StoreError.closedStore ∧
    delete_recipe (close s) t = Except.error StoreError.closedStore ∧
    get_all_recipes (close s) = Except.error StoreError.closedStore := by
  refine ⟨rfl, ?_, ?_, ?_⟩ <;>
    simp [close, save_recipe, delete_recipe, get_all_recipes]

/-- C9: on an open store, deleting with a listing whose title matches zero
rows still succeeds (the success message box is shown) and still notifies
every registered observer: notification on delete is unconditional on whether
any row was removed. -/
theorem delete_zero_match_notifies_all (s : RepoState)
    (t : String × String × String × String) (hopen : s.closed = false)
    (hnone : ∀ r ∈ s.rows, r.title ≠ t.1) :
    delete_recipe s t = Except.ok (s, s.observers) := by
  rw [delete_recipe_open s t hopen]
  have hfix : s.rows.filter (fun row => row.title != t.1) = s.rows :=
    List.filter_eq_self.mpr (fun a ha => by simpa [bne_iff_ne] using hnone a ha)
  rw [hfix]

/-- C9, witness: store with one row titled A and observer 9; deleting a
listing titled B matches nothing yet succeeds and notifies observer 9. -/
theorem delete_zero_match_notifies_all_witness :
    delete_recipe ⟨[⟨1, "A", "i1", "s1", "u1"⟩], 2, [9], false⟩ ("B", "x", "y", "z") =
      Except.ok (⟨[⟨1, "A", "i1", "s1", "u1"⟩], 2, [9], false⟩, [9]) :=
  delete_zero_match_notifies_all ⟨[⟨1, "A", "i1", "s1", "u1"⟩], 2, [9], false⟩
    ("B", "x", "y", "z") rfl (by decide)

end FlavourQuest
